import Mathlib

/-!
Shallow embedding of `curry_howard.py`: natural-deduction inference rules
for conjunction, disjunction and implication encoded as operations on
evidence values, plus the eight worked proofs built from them.

Python's dynamically typed evidence values are embedded polymorphically:
each operation is a Lean function parametric in the evidence types it
manipulates.  Conjunction evidence is a pair, disjunction evidence is a
`String × _` pair whose first component is the `"left"`/`"right"` tag
(exactly as in the source), implication evidence is a function.

The source's `or_e` listing has a tab/space indentation defect around its
`r = None` initialisation and final `return r`; the embedding follows the
unambiguous if/else structure of its body (one branch selected, its result
returned), which is also the behaviour the repository documentation
describes.
-/

namespace CurryHoward

/-- `and_i(p, q)`: and-introduction, builds the pair `(p, q)`. -/
def and_i {α β : Type} (p : α) (q : β) : α × β :=
  (p, q)

/-- `and_e1(pq)`: and-elimination 1, returns `pq[0]`. -/
def and_e1 {α β : Type} (pq : α × β) : α :=
  pq.1

/-- `and_e2(pq)`: and-elimination 2, returns `pq[1]`. -/
def and_e2 {α β : Type} (pq : α × β) : β :=
  pq.2

/-- `or_i1(p)`: or-introduction 1, tags the payload with the string `"left"`. -/
def or_i1 {α : Type} (p : α) : String × α :=
  ("left", p)

/-- `or_i2(q)`: or-introduction 2, tags the payload with the string `"right"`. -/
def or_i2 {α : Type} (q : α) : String × α :=
  ("right", q)

/-- `or_e(pORq, pDEDUCEr, qDEDUCEr)`: or-elimination.  Compares the tag
`pORq[0]` with `"left"`; on a match applies the first deduction to the
payload `pORq[1]`, otherwise applies the second deduction to the payload. -/
def or_e {α ρ : Type} (pORq : String × α) (pDEDUCEr : α → ρ) (qDEDUCEr : α → ρ) : ρ :=
  if pORq.1 = "left" then pDEDUCEr pORq.2 else qDEDUCEr pORq.2

/-- `imply_i(pDEDUCEq)`: implication-introduction, wraps the deduction as the
inner function `pIMPLYq(p) = pDEDUCEq(p)` and returns it. -/
def imply_i {α β : Type} (pDEDUCEq : α → β) : α → β :=
  fun p =>
    let q := pDEDUCEq p
    q

/-- `imply_e(pIMPLYq, p)`: implication-elimination, applies the wrapped
transformation to the supplied evidence. -/
def imply_e {α β : Type} (pIMPLYq : α → β) (p : α) : β :=
  let q := pIMPLYq p
  q

/-- `and_example(pANDq)`: the derivation `p ∧ q ⊢ q ∧ p`. -/
def and_example {α β : Type} (pANDq : α × β) : β × α :=
  let p := and_e1 pANDq
  let q := and_e2 pANDq
  let qANDp := and_i q p
  qANDp

/-- `or_example(q)`: the derivation `q ⊢ p ∨ q ∨ r`. -/
def or_example {α : Type} (q : α) : String × (String × α) :=
  let pORq := or_i2 q
  let pORqORr := or_i1 pORq
  pORqORr

/-- `example1(pqIMPLYr, pIMPLYq, p)`: the derivation
`(p ∧ q) → r, p → q, p ⊢ r`. -/
def example1 {α β ρ : Type} (pqIMPLYr : α × β → ρ) (pIMPLYq : α → β) (p : α) : ρ :=
  let q := imply_e pIMPLYq p
  let pANDq := and_i p q
  let r := imply_e pqIMPLYr pANDq
  r

/-- `example2(pqIMPLYr, q)`: the derivation `(p ∨ q) → r, q ⊢ r`. -/
def example2 {α ρ : Type} (pqIMPLYr : String × α → ρ) (q : α) : ρ :=
  let pORq := or_i2 q
  let r := imply_e pqIMPLYr pORq
  r

/-- `example3(p, qpIMPLYr)`: the derivation `p, (q ∧ p) → r ⊢ q → r`.
The inner deduction closes over the outer premise `p`. -/
def example3 {α β ρ : Type} (p : α) (qpIMPLYr : β × α → ρ) : β → ρ :=
  let qDEDUCEr := fun q =>
    let qANDp := and_i q p
    let r := imply_e qpIMPLYr qANDp
    r
  let qIMPLYr := imply_i qDEDUCEr
  qIMPLYr

/-- `example4(pIMPLYr, qIMPLYr)`: the derivation `p → r, q → r ⊢ (p ∨ q) → r`. -/
def example4 {α ρ : Type} (pIMPLYr : α → ρ) (qIMPLYr : α → ρ) : String × α → ρ :=
  let pqDEDUCEr := fun pORq =>
    let pDEDUCEr := fun p =>
      let r := imply_e pIMPLYr p
      r
    let qDEDUCEr := fun q =>
      let r := imply_e qIMPLYr q
      r
    let r := or_e pORq pDEDUCEr qDEDUCEr
    r
  let pqIMPLYr := imply_i pqDEDUCEr
  pqIMPLYr

/-- `example5(q)`: the derivation `q ⊢ p → (q ∧ p)`.  The inner deduction
closes over the outer premise `q` and pairs it with its argument. -/
def example5 {α β : Type} (q : α) : β → α × β :=
  let pDEDUCEqp := fun p =>
    let qANDp := and_i q p
    qANDp
  let pIMPLYqp := imply_i pDEDUCEqp
  pIMPLYqp

/-- `example6(pIMPLYqir)`: the derivation `p → (q → r) ⊢ (p → q) → (p → r)`. -/
def example6 {α β ρ : Type} (pIMPLYqir : α → β → ρ) : (α → β) → (α → ρ) :=
  let piqDEDUCEpir := fun pIMPLYq =>
    let pDEDUCEr := fun p =>
      let qIMPLYr := imply_e pIMPLYqir p
      let q := imply_e pIMPLYq p
      let r := imply_e qIMPLYr q
      r
    let pIMPLYr := imply_i pDEDUCEr
    pIMPLYr
  let piqIMPLYpir := imply_i piqDEDUCEpir
  piqIMPLYpir

end CurryHoward

namespace CurryHoward

/-- C1: for all evidence values `a` and `b`,
`and_e1 (and_i a b) = a` and `and_e2 (and_i a b) = b`: conjunction
introduction followed by either elimination returns the corresponding
component unchanged. -/
theorem and_i_and_e_roundtrip {α β : Type} (a : α) (b : β) :
    and_e1 (and_i a b) = a ∧ and_e2 (and_i a b) = b :=
  ⟨rfl, rfl⟩

/-- C2: for every value `a` and transformations `f`, `g`,
`or_e (or_i1 a) f g = f a`, and for every value `b` and transformations
`f2`, `g2`, `or_e (or_i2 b) f2 g2 = g2 b`: the tag attached by each
disjunction introduction selects the matching transformation in `or_e`,
which receives the original payload. -/
theorem or_i_or_e_tag_integrity {α β ρ σ : Type}
    (a : α) (b : β) (f g : α → ρ) (f2 g2 : β → σ) :
    or_e (or_i1 a) f g = f a ∧ or_e (or_i2 b) f2 g2 = g2 b := by
  refine ⟨?_, ?_⟩ <;> simp [or_e, or_i1, or_i2]

/-- C3: for every function `f` and input `x`,
`imply_e (imply_i f) x = f x`: wrapping a transformation as implication
evidence and then applying it invokes the original transformation. -/
theorem imply_i_imply_e_identity {α β : Type} (f : α → β) (x : α) :
    imply_e (imply_i f) x = f x :=
  rfl

/-- C4: `or_e` dispatches on the discriminant of its disjunction-evidence
argument: a `"left"` tag applies the first transformation to the payload, a
`"right"` tag applies the second, and for every tag exactly one of the two
transformations is invoked on the payload (witnessed by the instrumented
call whose result records which transformation ran): the two-way if/else is
the whole dispatch, with no further default branch. -/
theorem or_e_two_way_dispatch {α ρ : Type} (tag : String) (p : α) (f g : α → ρ) :
    or_e ("left", p) f g = f p
      ∧ or_e ("right", p) f g = g p
      ∧ (or_e (tag, p) (fun x => (Sum.inl x : α ⊕ α)) (fun x => Sum.inr x) = Sum.inl p
          ∨ or_e (tag, p) (fun x => (Sum.inl x : α ⊕ α)) (fun x => Sum.inr x) = Sum.inr p) := by
  refine ⟨by simp [or_e], by simp [or_e], ?_⟩
  by_cases h : tag = "left" <;> simp [or_e, h]

/-- C5: for `p = "p"` and any `qpIMPLYr` sending every pair to `"r"`, the
transformation returned by `example3 p qpIMPLYr` sends every `q`-evidence
`x` to `"r"`. -/
theorem example3_nested_closure {β : Type}
    (qpIMPLYr : β × String → String) (h : ∀ y, qpIMPLYr y = "r") (x : β) :
    example3 "p" qpIMPLYr x = "r" :=
  h (x, "p")

/-- Witness for C5 at `β = String`, `qpIMPLYr = fun y => "r"`, `x = "q"`. -/
theorem example3_nested_closure_witness :
    example3 "p" (fun _ : String × String => "r") "q" = "r" :=
  example3_nested_closure (fun _ => "r") (fun _ => rfl) "q"

/-- C6: for every `q` and `p`, the transformation returned by `example5 q`
captures the outer `q` and pairs it with its argument:
`example5 q p = and_i q p = (q, p)`. -/
theorem example5_captures_q {α β : Type} (q : α) (p : β) :
    example5 q p = and_i q p ∧ example5 q p = (q, p) :=
  ⟨rfl, rfl⟩

/-- C7: `and_example (and_i "p" "q") = ("q", "p")`: the commutativity
derivation swaps the pair exactly. -/
theorem and_example_swaps :
    and_example (and_i "p" "q") = ("q", "p") :=
  rfl

/-- C8: `or_example "q"` yields evidence tagged Left wrapping evidence
tagged Right wrapping `"q"`, structurally `("left", ("right", "q"))`. -/
theorem or_example_left_right :
    or_example "q" = ("left", ("right", "q")) :=
  rfl

/-- C9: every core operation and every worked proof is extensionally a
fixed, non-recursive straight-line expression in its inputs, applying each
supplied transformation at most once per occurrence shown (and `or_e`
exactly one of its two); hence each call terminates after a fixed finite
number of primitive steps plus the listed transformation applications. -/
theorem core_operations_straight_line :
    (∀ (α β : Type) (a : α) (b : β), and_i a b = (a, b))
      ∧ (∀ (α β : Type) (pq : α × β), and_e1 pq = pq.1)
      ∧ (∀ (α β : Type) (pq : α × β), and_e2 pq = pq.2)
      ∧ (∀ (α : Type) (a : α), or_i1 a = ("left", a))
      ∧ (∀ (α : Type) (b : α), or_i2 b = ("right", b))
      ∧ (∀ (α ρ : Type) (tag : String) (p : α) (f g : α → ρ),
          or_e (tag, p) f g = f p ∨ or_e (tag, p) f g = g p)
      ∧ (∀ (α β : Type) (f : α → β) (x : α), imply_i f x = f x)
      ∧ (∀ (α β : Type) (f : α → β) (x : α), imply_e f x = f x)
      ∧ (∀ (α β : Type) (pq : α × β), and_example pq = (pq.2, pq.1))
      ∧ (∀ (α : Type) (q : α), or_example q = ("left", ("right", q)))
      ∧ (∀ (α β ρ : Type) (f : α × β → ρ) (g : α → β) (p : α),
          example1 f g p = f (p, g p))
      ∧ (∀ (α ρ : Type) (f : String × α → ρ) (q : α), example2 f q = f ("right", q))
      ∧ (∀ (α β ρ : Type) (p : α) (f : β × α → ρ) (x : β), example3 p f x = f (x, p))
      ∧ (∀ (α ρ : Type) (f g : α → ρ) (pORq : String × α),
          example4 f g pORq = or_e pORq f g)
      ∧ (∀ (α β : Type) (q : α) (p : β), example5 q p = (q, p))
      ∧ (∀ (α β ρ : Type) (F : α → β → ρ) (f : α → β) (p : α),
          example6 F f p = F p (f p)) := by
  refine ⟨fun _ _ _ _ => rfl, fun _ _ _ => rfl, fun _ _ _ => rfl,
    fun _ _ => rfl, fun _ _ => rfl, ?_,
    fun _ _ _ _ => rfl, fun _ _ _ _ => rfl, fun _ _ _ => rfl, fun _ _ => rfl,
    fun _ _ _ _ _ _ => rfl, fun _ _ _ _ => rfl, fun _ _ _ _ _ _ => rfl,
    fun _ _ _ _ _ => rfl, fun _ _ _ _ => rfl, fun _ _ _ _ _ _ => rfl⟩
  intro α ρ tag p f g
  by_cases h : tag = "left"
  · exact Or.inl (by simp [or_e, h])
  · exact Or.inr (by simp [or_e, h])

/-- C10: for every pair whose first component is any string other than
`"left"`, `or_e` applies the second transformation to the payload and
returns its result: a wrong tag is silently treated as Right evidence
rather than raising a malformed-evidence error. -/
theorem or_e_wrong_tag_treated_as_right {α ρ : Type}
    (tag : String) (p : α) (f g : α → ρ) (h : tag ≠ "left") :
    or_e (tag, p) f g = g p := by
  simp [or_e, h]

/-- Witness for C10 at the malformed tag `"middle"`. -/
theorem or_e_wrong_tag_witness :
    or_e ("middle", (3 : Nat)) (fun n => n + 1) (fun n => n * 2) = 6 :=
  or_e_wrong_tag_treated_as_right "middle" 3 (fun n => n + 1) (fun n => n * 2)
    (by decide)

end CurryHoward
